import Mathlib

/-!
Shallow embedding of the tile-selection, source-selection and mosaic/clip
pipeline of the download_dem repository (anc_main.py, anc_regions.py,
anc_tools.py, dwn_SRTM.py, dwn_NL.py, dwn_DE.py).

Geometry operations performed by the external shapely / geopandas
libraries (within, intersects, envelope, bounds, coordinate transforms,
box construction) are abstracted as parameters collected in `GeoApi`;
the external rasterio.merge call is a function parameter of `merge_clip`.
The control flow and data flow of the Python functions are translated
directly; Python exceptions are modelled with `Except`.
-/

namespace DownloadDem

/-- Axis-aligned bounds (minx, miny, maxx, maxy), as produced by
`GeoSeries.bounds` in the Python code. -/
structure Bounds where
  minx : ℚ
  miny : ℚ
  maxx : ℚ
  maxy : ℚ
deriving DecidableEq

/-- A geopandas GeoSeries holding a single geometry together with its CRS.
The CRS is modelled by its EPSG integer code, which is what the Python code
extracts with `crs.to_epsg()` and compares. -/
structure GeoSeries (G : Type) where
  geometry : G
  crs : Int
deriving DecidableEq

/-- The external geometry backend (shapely / geopandas operations invoked by
the code).  The pipeline is parametric in it; concrete instantiations are
used only to evaluate the definitions on sample inputs. -/
structure GeoApi (G : Type) where
  toCrs : G → Int → G
  envelope : G → G
  within : G → G → Bool
  intersects : G → G → Bool
  boundsOf : G → Bounds
  box : ℚ → ℚ → ℚ → ℚ → G

/-- Reprojection step as written at each call site of the code
(anc_main.py lines 71-77, anc_tools.py merge_clip lines 86-94, the
get_tile_names functions of dwn_SRTM.py / dwn_NL.py / dwn_DE.py): the
transform `to_crs` is applied only when the two EPSG codes differ,
otherwise the GeoSeries is passed through unchanged.  (The Python sites
write the inequality with either operand order; the condition is the
same.) -/
def reproject {G : Type} (toCrs : G → Int → G) (gs : GeoSeries G) (target : Int) :
    GeoSeries G :=
  if gs.crs ≠ target then ⟨toCrs gs.geometry target, target⟩ else gs

/-- One row of the dtm_open_data.shp region catalogue read by anc_main.py:
a coverage polygon and the region tag stored in column "abbrev" (the field
is renamed `abbrv` because `abbrev` is a Lean keyword). -/
structure RegionRow (G : Type) where
  geometry : G
  abbrv : String
deriving DecidableEq

/-- Loop body of the source-selection loop of anc_main.py (lines 81-87):
whenever the AOI is within the row geometry the row tag is (re)assigned;
then, still inside the loop, a yet-unset selection is replaced by the
fallback tag "SRTM". -/
def select_step {G : Type} (within : G → G → Bool) (wgs_aoi : G)
    (sel : Option String) (row : RegionRow G) : Option String :=
  let s1 := if within wgs_aoi row.geometry then some row.abbrv else sel
  if s1 = none then some "SRTM" else s1

/-- Source-selection loop of anc_main.py (lines 79-87): fold `select_step`
over the region catalogue starting from `select = None`. -/
def selectSource {G : Type} (within : G → G → Bool)
    (open_dtm : List (RegionRow G)) (wgs_aoi : G) : Option String :=
  open_dtm.foldl (select_step within wgs_aoi) none

/-- Affine transform coefficients in rasterio order
(a = pixel width, b = row rotation, c = x of the top-left corner,
d = column rotation, e = pixel height (negative for north-up),
f = y of the top-left corner). -/
structure Affine where
  a : ℚ
  b : ℚ
  c : ℚ
  d : ℚ
  e : ℚ
  f : ℚ
deriving DecidableEq

/-- Integer indexing `transform[i]` used by anc_main.py lines 131-134. -/
def Affine.coeff (t : Affine) : Nat → ℚ
  | 0 => t.a
  | 1 => t.b
  | 2 => t.c
  | 3 => t.d
  | 4 => t.e
  | 5 => t.f
  | _ => 0

/-- Rasterio dataset metadata, restricted to the fields the code reads and
updates (`meta.copy()` + `update` in merge_clip, unpacking in anc_main). -/
structure RasterMeta where
  driver : String
  height : Nat
  width : Nat
  transform : Affine
  crs : Option Int
deriving DecidableEq

/-- An opened raster tile: its CRS (`None` for CRS-less tiles, e.g. rasters
freshly produced from point clouds) and its metadata. -/
structure RasterFile where
  crs : Option Int
  meta : RasterMeta
deriving DecidableEq

/-- Shape of a merged mosaic array; `mosaic.shape = (bands, height, width)`
in the Python code. -/
structure MosaicArray where
  bands : Nat
  height : Nat
  width : Nat
deriving DecidableEq

/-- Result dictionary of merge_clip (and of the region preparation
routines of anc_regions.py, which return it onward). -/
structure DtmOut where
  out_msg : String
  array : MosaicArray
  dtm_meta : RasterMeta
deriving DecidableEq

/-- Python exceptions relevant to the embedded core.  `indexError` models
the IndexError raised by `src_all[0]` on an empty tile list;
`noDataAvailable` is the error class named by the specification — nothing
in the code ever raises it, it is declared here only so that the specified
behaviour is statable and comparable; `valueError` models the explicit
`raise ValueError(...)` sites; `other` models any further exception
propagating out of a collaborator. -/
inductive PyErr where
  | indexError
  | noDataAvailable
  | valueError (msg : String)
  | other (msg : String)
deriving DecidableEq

/-- Clip-bounds step of merge_clip (anc_tools.py lines 85-98).  It examines
only the first opened raster: a missing CRS on that raster yields
`bounds = None`; otherwise the AOI is reprojected into that raster's CRS
and its rectangular bounds are extracted. -/
def clip_bounds {G : Type} (api : GeoApi G) (first : RasterFile)
    (gs_aoi : GeoSeries G) : Option Bounds :=
  match first.crs with
  | none => none
  | some raster_crs =>
    some (api.boundsOf (reproject api.toCrs gs_aoi raster_crs).geometry)

/-- merge_clip (anc_tools.py lines 63-119).  The external rasterio merge is
the parameter `mergeFn`, mapping the opened tiles and the optional clip
bounds to the mosaic array and the output transform.  An empty input
directory makes the Python code fail at `src_all[0].crs` with an
IndexError before anything else happens.  On success the metadata of the
first tile is copied and updated with driver, mosaic height/width and the
merge transform. -/
def merge_clip {G : Type} (api : GeoApi G)
    (mergeFn : List RasterFile → Option Bounds → MosaicArray × Affine)
    (files : List RasterFile) (gs_aoi : GeoSeries G) : Except PyErr DtmOut :=
  match files with
  | [] => Except.error PyErr.indexError
  | first :: rest =>
    let src_all := first :: rest
    let bounds := clip_bounds api first gs_aoi
    let merged := mergeFn src_all bounds
    let out_meta : RasterMeta :=
      { first.meta with
          driver := "GTiff"
          height := merged.1.height
          width := merged.1.width
          transform := merged.2 }
    Except.ok
      { out_msg := "File successfully merged and clipped!"
        array := merged.1
        dtm_meta := out_meta }

/-- get_SRTM of anc_regions.py (lines 225-239): run the download (whose
outcome, the tile files found in the download directory, is the parameter
`dwn`), then merge & clip; an exception raised inside merge_clip
propagates uncaught; on success the output message is replaced. -/
def get_SRTM {G : Type} (api : GeoApi G)
    (mergeFn : List RasterFile → Option Bounds → MosaicArray × Affine)
    (dwn : Except PyErr (List RasterFile)) (gs_aoi : GeoSeries G) :
    Except PyErr DtmOut := do
  let files ← dwn
  let out ← merge_clip api mergeFn files gs_aoi
  pure { out with out_msg := "Ancillary DTM data from SRTM successfully prepared!" }

namespace DwnDE

/-- One row of the fishnet_DE.shp tile catalogue (dwn_DE.py): tile
footprint, lower-left corner coordinates in metres, and the remote file
names for the DTM and LAZ products. -/
structure FishRow (G : Type) where
  geometry : G
  left : ℚ
  bottom : ℚ
  file_name : String
  laz_name : String
deriving DecidableEq

/-- Base URL of the NRW open-data server (dwn_DE.py line 53). -/
def url_path : String := "https://www.opengeodata.nrw.de/produkte/geobasis/hm/"

/-- Name of an NRW LAZ tile from its kilometre grid coordinates, as built
by the f-strings of dwn_DE.py lines 70-72. -/
def laz_tile_name (ax ay : ℤ) : String := s!"3dm_32_{ax}_{ay}_1_nw.laz"

/-- Loop body of dwn_DE.get_tile_names (lines 63-72): for a matching tile,
append its remote name and then the three synthesized adjacent tiles —
right, above and diagonally above-right of the grid cell whose lower-left
corner is (ax, ay) in kilometre units.  Python's `round` is modelled by
Mathlib's `round` on ℚ (they differ only on exact halves, where Python
rounds half to even). -/
def tiles_step {G : Type} (intersects : G → G → Bool) (url_main : String)
    (file_type : FishRow G → String) (aoi_pr : G)
    (tiles : List String) (row : FishRow G) : List String :=
  if intersects aoi_pr row.geometry then
    let ax : ℤ := round (row.left / 1000)
    let ay : ℤ := round (row.bottom / 1000)
    tiles ++ [url_main ++ file_type row,
              url_main ++ laz_tile_name (ax + 1) ay,
              url_main ++ laz_tile_name ax (ay + 1),
              url_main ++ laz_tile_name (ax + 1) (ay + 1)]
  else tiles

/-- Tile-collection loop of dwn_DE.get_tile_names (lines 62-72). -/
def tiles_loop {G : Type} (intersects : G → G → Bool) (url_main : String)
    (file_type : FishRow G → String) (fishnet : List (FishRow G))
    (aoi_pr : G) : List String :=
  fishnet.foldl (tiles_step intersects url_main file_type aoi_pr) []

/-- dwn_DE.get_tile_names (lines 30-74): reproject the AOI into the
fishnet CRS and take its envelope, pick URL prefix and catalogue column
from the data type (raising ValueError otherwise), then run the
tile-collection loop. -/
def get_tile_names {G : Type} (api : GeoApi G) (fishnet : List (FishRow G))
    (grd_crs : Int) (aoi : GeoSeries G) (data_type : String) :
    Except PyErr (List String) :=
  let aoi_pr := api.envelope (reproject api.toCrs aoi grd_crs).geometry
  if data_type = "DTM" then
    Except.ok (tiles_loop api.intersects (url_path ++ "dgm1_xyz/dgm1_xyz/")
      FishRow.file_name fishnet aoi_pr)
  else if data_type = "LAZ" then
    Except.ok (tiles_loop api.intersects (url_path ++ "3dm_l_las/3dm_l_las/")
      FishRow.laz_name fishnet aoi_pr)
  else
    Except.error (PyErr.valueError
      ("Unrecognized data type \x27" ++ data_type ++ "\x27 dwn_DE.py."))

end DwnDE

namespace DwnSRTM

/-- One row of the srtm30m_bounding_boxes.json catalogue (dwn_SRTM.py). -/
structure SrtmRow (G : Type) where
  geometry : G
  tile_name : String
deriving DecidableEq

/-- Loop body of dwn_SRTM.get_tile_names (lines 54-57). -/
def srtm_step {G : Type} (intersects : G → G → Bool) (aoi_pr : G)
    (tiles : List String) (row : SrtmRow G) : List String :=
  if intersects aoi_pr row.geometry then tiles ++ [row.tile_name] else tiles

/-- dwn_SRTM.get_tile_names (lines 22-58): reproject the AOI into the
fishnet CRS, take its envelope, and collect the names of the catalogue
tiles whose geometry intersects that envelope, in catalogue order. -/
def get_tile_names {G : Type} (api : GeoApi G) (fishnet : List (SrtmRow G))
    (net_crs : Int) (aoi : GeoSeries G) : List String :=
  let aoi_pr := api.envelope (reproject api.toCrs aoi net_crs).geometry
  fishnet.foldl (srtm_step api.intersects aoi_pr) []

end DwnSRTM

namespace DwnNL

/-- One row of the AHN3 fishnet (dwn_NL.py): tile footprint, the tile
identifier column "Kaartblad" and the four URL columns. -/
structure AhnRow (G : Type) where
  geometry : G
  kaartblad : String
  ahn3_laz : String
  ahn3_dtm : String
  ahn2_i : String
  ahn2_r : String
deriving DecidableEq

/-- The five parallel lists built by dwn_NL.get_tile_names (lines 72-76). -/
structure AhnTiles where
  tile_names : List String
  laz_url : List String
  dtm_url : List String
  ahn2_i : List String
  ahn2_r : List String
deriving DecidableEq

/-- Loop body of dwn_NL.get_tile_names (lines 77-84). -/
def nl_step {G : Type} (intersects : G → G → Bool) (aoi_pr : G)
    (tiles : AhnTiles) (row : AhnRow G) : AhnTiles :=
  if intersects aoi_pr row.geometry then
    { tile_names := tiles.tile_names ++ [row.kaartblad]
      laz_url := tiles.laz_url ++ [row.ahn3_laz]
      dtm_url := tiles.dtm_url ++ [row.ahn3_dtm]
      ahn2_i := tiles.ahn2_i ++ [row.ahn2_i]
      ahn2_r := tiles.ahn2_r ++ [row.ahn2_r] }
  else tiles

/-- dwn_NL.get_tile_names (lines 33-85): reproject the AOI into the
fishnet CRS, take its envelope, and collect identifier and URL columns of
all catalogue tiles whose geometry intersects that envelope. -/
def get_tile_names {G : Type} (api : GeoApi G) (ahn3_gj : List (AhnRow G))
    (ahn_crs : Int) (aoi : GeoSeries G) : AhnTiles :=
  let aoi_pr := api.envelope (reproject api.toCrs aoi ahn_crs).geometry
  ahn3_gj.foldl (nl_step api.intersects aoi_pr) ⟨[], [], [], [], []⟩

end DwnNL

/-- The region preparation routines of anc_regions.py as invoked by
anc_main.py; each may fail (raise), modelled with `Except PyErr`.  The
string argument is the data type ("DTM" or "LAZ"); get_DE also receives
the region name. -/
structure RegionApi where
  get_NL : String → Except PyErr DtmOut
  get_DK : String → Except PyErr DtmOut
  get_SI : String → Except PyErr DtmOut
  get_DE : String → String → Except PyErr DtmOut
  get_MX : Except PyErr DtmOut
  get_SRTM : Except PyErr DtmOut

/-- Region dispatch of anc_main.py (lines 92-114): a string-tag if/elif
chain.  For NL, DK and SI the intensity (LAZ) product is obtained right
after the DTM product with no exception handler in between; for DE_NRW
and MX and for the SRTM fall-through branch `out_int` is set to None.  An
exception raised by any call propagates out of anc_main. -/
def region_dispatch (api : RegionApi) (sel : Option String) :
    Except PyErr (DtmOut × Option DtmOut) :=
  if sel = some "NL" then do
    let out ← api.get_NL "DTM"
    let out_int ← api.get_NL "LAZ"
    pure (out, some out_int)
  else if sel = some "DK" then do
    let out ← api.get_DK "DTM"
    let out_int ← api.get_DK "LAZ"
    pure (out, some out_int)
  else if sel = some "SI" then do
    let out ← api.get_SI "DTM"
    let out_int ← api.get_SI "LAZ"
    pure (out, some out_int)
  else if sel = some "DE_NRW" then do
    let out ← api.get_DE "DTM" "NRW"
    pure (out, none)
  else if sel = some "MX" then do
    let out ← api.get_MX
    pure (out, none)
  else do
    let out ← api.get_SRTM
    pure (out, none)

/-- The output dictionary assembled by anc_main.py (lines 116-156).
Fields that exist only when the intensity product is present are modelled
as options (they are simply absent keys in Python when `out_int` is
None; `array_intensity` itself is set to None in that case). -/
structure AncOutput where
  array_dtm : MosaicArray
  x_min : ℚ
  y_max : ℚ
  x_size : ℚ
  y_size : ℚ
  width : Nat
  height : Nat
  crs : Option Int
  crs_wkt : String
  array_intensity : Option MosaicArray
  x_min_intensity : Option ℚ
  y_max_intensity : Option ℚ
  x_size_intensity : Option ℚ
  y_size_intensity : Option ℚ
  width_intensity : Option Nat
  height_intensity : Option Nat
deriving DecidableEq

/-- Output assembly of anc_main.py (lines 120-156): drop the message,
rename the array, unpack the transform coefficients (indices 2, 5, 0, 4)
and the metadata, render the CRS as WKT (the external
`crs.CRS.from_dict(...).wkt` is the parameter `wkt`), then attach the
intensity product if present. -/
def assemble (wkt : Option Int → String) (out : DtmOut) (out_int : Option DtmOut) :
    AncOutput :=
  let t := out.dtm_meta.transform
  { array_dtm := out.array
    x_min := t.coeff 2
    y_max := t.coeff 5
    x_size := t.coeff 0
    y_size := t.coeff 4
    width := out.dtm_meta.width
    height := out.dtm_meta.height
    crs := out.dtm_meta.crs
    crs_wkt := wkt out.dtm_meta.crs
    array_intensity := out_int.map DtmOut.array
    x_min_intensity := out_int.map (fun o => o.dtm_meta.transform.coeff 2)
    y_max_intensity := out_int.map (fun o => o.dtm_meta.transform.coeff 5)
    x_size_intensity := out_int.map (fun o => o.dtm_meta.transform.coeff 0)
    y_size_intensity := out_int.map (fun o => o.dtm_meta.transform.coeff 4)
    width_intensity := out_int.map (fun o => o.dtm_meta.width)
    height_intensity := out_int.map (fun o => o.dtm_meta.height) }

/-- The directories existing on disk; only what anc_main touches is
modelled. -/
structure FileSys where
  dirs : List String
deriving DecidableEq

/-- Everything anc_main.py obtains from outside the function: the geometry
backend, the region coverage catalogue with its CRS, the region
preparation routines, WKT rendering, and whether removal of the temporary
directory tree would itself succeed.  (`shutil.rmtree` is invoked with
`ignore_errors=True`, so a failing removal is swallowed either way.) -/
structure AncEnv (G : Type) where
  geo : GeoApi G
  open_dtm : List (RegionRow G)
  wgs_epsg : Int
  regions : RegionApi
  wkt : Option Int → String
  rmtree_ok : Bool

/-- Source-selection stage of anc_main.py (lines 71-87): reproject the AOI
to the catalogue CRS, then run the selection loop on its geometry. -/
def anc_select {G : Type} (env : AncEnv G) (gs_aoi : GeoSeries G) : Option String :=
  selectSource env.geo.within env.open_dtm
    (reproject env.geo.toCrs gs_aoi env.wgs_epsg).geometry

/-- anc_main (anc_main.py lines 32-172): build the AOI box, create the
temporary directory, select the source, dispatch to the region routines,
assemble the output and finally remove the temporary directory.  The
result is the Python return value (or the propagated exception) together
with the final state of the file system.  The temporary-directory removal
(line 170) sits on the fall-through success path only: an exception
raised in any earlier stage leaves the directory behind. -/
def anc_main {G : Type} (env : AncEnv G) (project_id : String)
    (aoi_extent : Bounds) (aoi_epsg : Int) (fs : FileSys) :
    Except PyErr AncOutput × FileSys :=
  let polygon := env.geo.box aoi_extent.minx aoi_extent.miny
    aoi_extent.maxx aoi_extent.maxy
  let gs_aoi : GeoSeries G := ⟨polygon, aoi_epsg⟩
  let tmp_dir := "./" ++ project_id ++ "_anc_temp"
  let fs1 : FileSys := if tmp_dir ∈ fs.dirs then fs else ⟨fs.dirs ++ [tmp_dir]⟩
  match region_dispatch env.regions (anc_select env gs_aoi) with
  | Except.error e => (Except.error e, fs1)
  | Except.ok (out, out_int) =>
    let output := assemble env.wkt out out_int
    let fs2 : FileSys :=
      if env.rmtree_ok then ⟨fs1.dirs.filter (fun d => d ≠ tmp_dir)⟩ else fs1
    (Except.ok output, fs2)

/-!
Concrete instantiations used to evaluate the definitions on sample
inputs.
-/

/-- Integer-lattice point sets: a small concrete geometry type for
instantiating the abstract backend. -/
abbrev PtSet : Type := List (ℤ × ℤ)

/-- All lattice points of the bounding box of a point set: the concrete
`envelope` of the point-set backend. -/
def bboxFill (g : PtSet) : PtSet :=
  match g with
  | [] => []
  | p :: ps =>
    let x0 := (ps.map Prod.fst).foldl min p.1
    let x1 := (ps.map Prod.fst).foldl max p.1
    let y0 := (ps.map Prod.snd).foldl min p.2
    let y1 := (ps.map Prod.snd).foldl max p.2
    (List.range (x1 - x0 + 1).toNat).flatMap
      (fun i => (List.range (y1 - y0 + 1).toNat).map
        (fun j => (x0 + Int.ofNat i, y0 + Int.ofNat j)))

/-- Point-set geometry backend: intersection is sharing a point,
containment is pointwise membership, reprojection is the identity. -/
def ptApi : GeoApi PtSet :=
  { toCrs := fun g _ => g
    envelope := bboxFill
    within := fun a b => a.all (fun p => b.contains p)
    intersects := fun a b => a.any (fun p => b.contains p)
    boundsOf := fun g =>
      match g with
      | [] => ⟨0, 0, 0, 0⟩
      | p :: ps =>
        ⟨((ps.map Prod.fst).foldl min p.1 : ℤ),
         ((ps.map Prod.snd).foldl min p.2 : ℤ),
         ((ps.map Prod.fst).foldl max p.1 : ℤ),
         ((ps.map Prod.snd).foldl max p.2 : ℤ)⟩
    box := fun x0 y0 x1 y1 => [(⌊x0⌋, ⌊y0⌋), (⌊x1⌋, ⌊y1⌋)] }

/-- Trivial one-point geometry backend whose containment and intersection
tests always succeed. -/
def unitApi : GeoApi Unit :=
  { toCrs := fun g _ => g
    envelope := fun g => g
    within := fun _ _ => true
    intersects := fun _ _ => true
    boundsOf := fun _ => ⟨0, 0, 0, 0⟩
    box := fun _ _ _ _ => () }

/-- Trivial backend whose containment test always fails. -/
def unitApiOut : GeoApi Unit :=
  { unitApi with within := fun _ _ => false }

def aoi0 : GeoSeries Unit := ⟨(), 3035⟩

def affine0 : Affine := ⟨5, 0, 100, 0, -5, 200⟩

def meta0 : RasterMeta := ⟨"GTiff", 10, 20, affine0, some 4326⟩

def fileCrs : RasterFile := ⟨some 4326, meta0⟩

def fileNoCrs : RasterFile := ⟨none, { meta0 with crs := none }⟩

/-- Sample external merge: the mosaic height records whether clip bounds
were supplied, so that the clip decision is observable in the result. -/
def mergeFn0 : List RasterFile → Option Bounds → MosaicArray × Affine :=
  fun files b => (⟨1, if b = none then 3 else 7, files.length⟩, affine0)

def prod0 : DtmOut := ⟨"msg", ⟨1, 4, 6⟩, meta0⟩

/-- Region routines that all fail. -/
def regionsFail : RegionApi :=
  { get_NL := fun _ => Except.error (PyErr.other "boom")
    get_DK := fun _ => Except.error (PyErr.other "boom")
    get_SI := fun _ => Except.error (PyErr.other "boom")
    get_DE := fun _ _ => Except.error (PyErr.other "boom")
    get_MX := Except.error (PyErr.other "boom")
    get_SRTM := Except.error (PyErr.other "boom") }

/-- Region routines for which the NL DTM product succeeds while the NL
LAZ (intensity) product fails. -/
def regionsNLLazFail : RegionApi :=
  { regionsFail with
      get_NL := fun dt =>
        if dt = "DTM" then Except.ok prod0
        else Except.error (PyErr.other "laz failed") }

/-- Region routines where every call succeeds. -/
def regionsOk : RegionApi :=
  { get_NL := fun _ => Except.ok prod0
    get_DK := fun _ => Except.ok prod0
    get_SI := fun _ => Except.ok prod0
    get_DE := fun _ _ => Except.ok prod0
    get_MX := Except.ok prod0
    get_SRTM := Except.ok prod0 }

def wkt0 : Option Int → String := fun _ => "WKT"

/-- Environment whose region stage fails (selection falls through to
SRTM, whose routine raises). -/
def envFail : AncEnv Unit :=
  { geo := unitApi, open_dtm := [], wgs_epsg := 4326,
    regions := regionsFail, wkt := wkt0, rmtree_ok := true }

/-- Environment selecting NL whose intensity stage fails. -/
def envNLLazFail : AncEnv Unit :=
  { geo := unitApi, open_dtm := [⟨(), "NL"⟩], wgs_epsg := 4326,
    regions := regionsNLLazFail, wkt := wkt0, rmtree_ok := true }

/-- Environment selecting MX where everything succeeds. -/
def envMX : AncEnv Unit :=
  { geo := unitApi, open_dtm := [⟨(), "MX"⟩], wgs_epsg := 4326,
    regions := regionsOk, wkt := wkt0, rmtree_ok := true }

/-- envMX with a failing removal of the temporary tree. -/
def envMXNoRm : AncEnv Unit := { envMX with rmtree_ok := false }

def ext0 : Bounds := ⟨0, 0, 1, 1⟩

/-- Two-region catalogue on the trivial geometry; with `unitApi.within`
every AOI is strictly within both coverage polygons. -/
def cexCatalog : List (RegionRow Unit) := [⟨(), "NL"⟩, ⟨(), "DK"⟩]

/-- AOI for the envelope counterexample: its footprint is the two diagonal
points (0,0) and (2,2). -/
def cexAoi : GeoSeries PtSet := ⟨[(0, 0), (2, 2)], 4326⟩

/-- One-tile catalogue for the envelope counterexample: the tile footprint
is the single point (2,0), which lies in the AOI envelope but not in the
AOI footprint. -/
def cexFishnet : List (DwnSRTM.SrtmRow PtSet) := [⟨[(2, 0)], "N46E014"⟩]

/-- Shifting transform on an integer geometry, used to observe whether a
transform was applied. -/
def shiftCrs : ℤ → Int → ℤ := fun g _ => g + 1

def gsZ : GeoSeries ℤ := ⟨7, 3035⟩

/-!
Helper lemmas about the selection loop.
-/

theorem select_fold_some {G : Type} (within : G → G → Bool) (wgs_aoi : G) :
    ∀ (rows : List (RegionRow G)) (x : String),
      rows.foldl (select_step within wgs_aoi) (some x)
        = some (((rows.filter (fun row => within wgs_aoi row.geometry)).map
            RegionRow.abbrv).getLastD x) := by
  intro rows
  induction rows with
  | nil => intro x; rfl
  | cons r rs ih =>
    intro x
    by_cases h : within wgs_aoi r.geometry
    · have hstep : select_step within wgs_aoi (some x) r = some r.abbrv := by
        simp [select_step, h]
      have hf : List.filter (fun row => within wgs_aoi row.geometry) (r :: rs)
          = r :: List.filter (fun row => within wgs_aoi row.geometry) rs := by
        rw [List.filter_cons]
        simp [h]
      rw [List.foldl_cons, hstep, ih, hf, List.map_cons, List.getLastD_cons]
    · have hstep : select_step within wgs_aoi (some x) r = some x := by
        simp [select_step, h]
      have hf : List.filter (fun row => within wgs_aoi row.geometry) (r :: rs)
          = List.filter (fun row => within wgs_aoi row.geometry) rs := by
        rw [List.filter_cons]
        simp [h]
      rw [List.foldl_cons, hstep, ih, hf]

theorem selectSource_cons_char {G : Type} (within : G → G → Bool) (aoi : G)
    (r : RegionRow G) (rs : List (RegionRow G)) :
    selectSource within (r :: rs) aoi
      = some ((((r :: rs).filter (fun row => within aoi row.geometry)).map
          RegionRow.abbrv).getLastD "SRTM") := by
  unfold selectSource
  rw [List.foldl_cons]
  by_cases h : within aoi r.geometry
  · have hstep : select_step within aoi none r = some r.abbrv := by
      simp [select_step, h]
    have hf : List.filter (fun row => within aoi row.geometry) (r :: rs)
        = r :: List.filter (fun row => within aoi row.geometry) rs := by
      rw [List.filter_cons]
      simp [h]
    rw [hstep, select_fold_some, hf, List.map_cons, List.getLastD_cons]
  · have hstep : select_step within aoi none r = some "SRTM" := by
      simp [select_step, h]
    have hf : List.filter (fun row => within aoi row.geometry) (r :: rs)
        = List.filter (fun row => within aoi row.geometry) rs := by
      rw [List.filter_cons]
      simp [h]
    rw [hstep, select_fold_some, hf]

theorem getLastD_map_getLast {α β : Type} (f : α → β) :
    ∀ (l : List α) (h : l ≠ []) (d : β),
      (l.map f).getLastD d = f (l.getLast h) := by
  intro l
  induction l with
  | nil => intro h; exact absurd rfl h
  | cons a l ih =>
    intro h d
    cases l with
    | nil => rfl
    | cons b m =>
      rw [List.map_cons, List.getLastD_cons, ih (List.cons_ne_nil b m) (f a)]
      simp

/-!
Claim theorems.
-/

/-- C9: the spatial-reference reconciliation step is the identity when the
footprint CRS equals the target CRS — the footprint is returned unchanged,
and since the result does not depend on `toCrs` no transform is applied; a
transform is applied exactly when the two CRS identifiers differ. -/
theorem reproject_identity_same_crs {G : Type} (toCrs : G → Int → G)
    (gs : GeoSeries G) (target : Int) :
    (gs.crs = target → reproject toCrs gs target = gs)
    ∧ (gs.crs ≠ target →
        reproject toCrs gs target = ⟨toCrs gs.geometry target, target⟩) := by
  constructor
  · intro h; simp [reproject, h]
  · intro h; simp [reproject, h]

/-- Witness for the reprojection claim: with a transform that shifts the
geometry, the same-CRS call returns the series unchanged while the
differing-CRS call applies the shift. -/
theorem reproject_identity_same_crs_w :
    reproject shiftCrs gsZ 3035 = gsZ
    ∧ reproject shiftCrs gsZ 4326 = ⟨8, 4326⟩ := by
  constructor
  · exact (reproject_identity_same_crs shiftCrs gsZ 3035).1 rfl
  · rw [(reproject_identity_same_crs shiftCrs gsZ 4326).2 (by decide)]
    rfl

/-- C1 (amended): when the AOI is strictly within at least one coverage
polygon, the selection returns the tag of the LAST-listed containing
polygon — the loop never breaks and each later match overwrites the
earlier one. -/
theorem select_source_last_containing {G : Type} (within : G → G → Bool)
    (cat : List (RegionRow G)) (aoi : G)
    (h : cat.filter (fun row => within aoi row.geometry) ≠ []) :
    selectSource within cat aoi
      = some (((cat.filter (fun row => within aoi row.geometry)).getLast h).abbrv) := by
  cases cat with
  | nil => exact absurd rfl h
  | cons r rs =>
    rw [selectSource_cons_char, getLastD_map_getLast _ _ h]

/-- Witness for the last-containing-polygon claim on a concrete two-region
catalogue where both polygons contain the AOI. -/
theorem select_source_last_containing_w :
    selectSource unitApi.within cexCatalog () = some "DK" := by
  have h : cexCatalog.filter (fun row => unitApi.within () row.geometry) ≠ [] := by
    decide
  rw [select_source_last_containing unitApi.within cexCatalog () h]
  rfl

/-- C1 counterexample: a two-region catalogue in which the AOI is strictly
within BOTH coverage polygons (the backend containment test always
returns true); the selection returns the second-listed tag "DK", not the
first-listed tag "NL" as the claim states. -/
theorem select_source_first_wins_cex :
    unitApi.within () (cexCatalog.get ⟨0, by decide⟩).geometry = true
    ∧ unitApi.within () (cexCatalog.get ⟨1, by decide⟩).geometry = true
    ∧ selectSource unitApi.within cexCatalog () = some "DK"
    ∧ selectSource unitApi.within cexCatalog () ≠ some "NL" := by
  exact ⟨rfl, rfl, by decide, by decide⟩

/-- C6: when the AOI is outside every coverage polygon, the selection
loop yields the fallback tag "SRTM" for every non-empty catalogue, and
the orchestrator dispatch runs the SRTM fall-through branch; both
functions are total, so no exception path exists. -/
theorem select_source_fallback_srtm {G : Type} (within : G → G → Bool)
    (cat : List (RegionRow G)) (aoi : G)
    (hall : ∀ r ∈ cat, within aoi r.geometry = false) :
    (cat ≠ [] → selectSource within cat aoi = some "SRTM")
    ∧ ∀ (api : RegionApi),
        region_dispatch api (selectSource within cat aoi)
          = api.get_SRTM.bind (fun o => Except.ok (o, none)) := by
  have hfilter : cat.filter (fun row => within aoi row.geometry) = [] := by
    rw [List.filter_eq_nil_iff]
    intro a ha
    simp [hall a ha]
  have hsel : selectSource within cat aoi = none
      ∨ selectSource within cat aoi = some "SRTM" := by
    cases cat with
    | nil => exact Or.inl rfl
    | cons r rs =>
      refine Or.inr ?_
      rw [selectSource_cons_char, hfilter]
      rfl
  constructor
  · intro hne
    cases cat with
    | nil => exact absurd rfl hne
    | cons r rs =>
      rw [selectSource_cons_char, hfilter]
      rfl
  · intro api
    rcases hsel with h | h <;> rw [h] <;> rfl

/-- Witness for the fallback claim: a one-region catalogue whose polygon
does not contain the AOI; selection returns "SRTM" and the dispatch runs
the SRTM routine. -/
theorem select_source_fallback_srtm_w :
    selectSource unitApiOut.within [(⟨(), "NL"⟩ : RegionRow Unit)] () = some "SRTM"
    ∧ region_dispatch regionsOk
        (selectSource unitApiOut.within [(⟨(), "NL"⟩ : RegionRow Unit)] ())
      = Except.ok (prod0, none) := by
  have h := select_source_fallback_srtm unitApiOut.within
    [(⟨(), "NL"⟩ : RegionRow Unit)] () (by decide)
  refine ⟨h.1 (by decide), ?_⟩
  rw [h.2 regionsOk]
  rfl

theorem srtm_fold_char {G : Type} (intersects : G → G → Bool) (aoi_pr : G) :
    ∀ (fishnet : List (DwnSRTM.SrtmRow G)) (acc : List String),
      fishnet.foldl (DwnSRTM.srtm_step intersects aoi_pr) acc
        = acc ++ (fishnet.filter (fun row => intersects aoi_pr row.geometry)).map
            DwnSRTM.SrtmRow.tile_name := by
  intro fishnet
  induction fishnet with
  | nil => intro acc; simp
  | cons r rs ih =>
    intro acc
    by_cases h : intersects aoi_pr r.geometry
    · have hstep : DwnSRTM.srtm_step intersects aoi_pr acc r = acc ++ [r.tile_name] := by
        simp [DwnSRTM.srtm_step, h]
      have hf : List.filter (fun row => intersects aoi_pr row.geometry) (r :: rs)
          = r :: List.filter (fun row => intersects aoi_pr row.geometry) rs := by
        rw [List.filter_cons]
        simp [h]
      rw [List.foldl_cons, hstep, ih, hf, List.map_cons]
      simp
    · have hstep : DwnSRTM.srtm_step intersects aoi_pr acc r = acc := by
        simp [DwnSRTM.srtm_step, h]
      have hf : List.filter (fun row => intersects aoi_pr row.geometry) (r :: rs)
          = List.filter (fun row => intersects aoi_pr row.geometry) rs := by
        rw [List.filter_cons]
        simp [h]
      rw [List.foldl_cons, hstep, ih, hf]

theorem nl_fold_char {G : Type} (intersects : G → G → Bool) (aoi_pr : G) :
    ∀ (rows : List (DwnNL.AhnRow G)) (acc : DwnNL.AhnTiles),
      rows.foldl (DwnNL.nl_step intersects aoi_pr) acc
        = ⟨acc.tile_names
              ++ (rows.filter (fun row => intersects aoi_pr row.geometry)).map
                  DwnNL.AhnRow.kaartblad,
           acc.laz_url
              ++ (rows.filter (fun row => intersects aoi_pr row.geometry)).map
                  DwnNL.AhnRow.ahn3_laz,
           acc.dtm_url
              ++ (rows.filter (fun row => intersects aoi_pr row.geometry)).map
                  DwnNL.AhnRow.ahn3_dtm,
           acc.ahn2_i
              ++ (rows.filter (fun row => intersects aoi_pr row.geometry)).map
                  DwnNL.AhnRow.ahn2_i,
           acc.ahn2_r
              ++ (rows.filter (fun row => intersects aoi_pr row.geometry)).map
                  DwnNL.AhnRow.ahn2_r⟩ := by
  intro rows
  induction rows with
  | nil => intro acc; simp
  | cons r rs ih =>
    intro acc
    by_cases h : intersects aoi_pr r.geometry
    · have hstep : DwnNL.nl_step intersects aoi_pr acc r
          = ⟨acc.tile_names ++ [r.kaartblad], acc.laz_url ++ [r.ahn3_laz],
             acc.dtm_url ++ [r.ahn3_dtm], acc.ahn2_i ++ [r.ahn2_i],
             acc.ahn2_r ++ [r.ahn2_r]⟩ := by
        simp [DwnNL.nl_step, h]
      have hf : List.filter (fun row => intersects aoi_pr row.geometry) (r :: rs)
          = r :: List.filter (fun row => intersects aoi_pr row.geometry) rs := by
        rw [List.filter_cons]
        simp [h]
      rw [List.foldl_cons, hstep, ih, hf]
      simp
    · have hstep : DwnNL.nl_step intersects aoi_pr acc r = acc := by
        simp [DwnNL.nl_step, h]
      have hf : List.filter (fun row => intersects aoi_pr row.geometry) (r :: rs)
          = List.filter (fun row => intersects aoi_pr row.geometry) rs := by
        rw [List.filter_cons]
        simp [h]
      rw [List.foldl_cons, hstep, ih, hf]

theorem de_fold_char {G : Type} (intersects : G → G → Bool) (url_main : String)
    (file_type : DwnDE.FishRow G → String) (aoi_pr : G) :
    ∀ (fishnet : List (DwnDE.FishRow G)) (acc : List String),
      fishnet.foldl (DwnDE.tiles_step intersects url_main file_type aoi_pr) acc
        = acc ++ (fishnet.filter (fun row => intersects aoi_pr row.geometry)).flatMap
            (fun row =>
              [url_main ++ file_type row,
               url_main ++ DwnDE.laz_tile_name (round (row.left / 1000) + 1)
                 (round (row.bottom / 1000)),
               url_main ++ DwnDE.laz_tile_name (round (row.left / 1000))
                 (round (row.bottom / 1000) + 1),
               url_main ++ DwnDE.laz_tile_name (round (row.left / 1000) + 1)
                 (round (row.bottom / 1000) + 1)]) := by
  intro fishnet
  induction fishnet with
  | nil => intro acc; simp
  | cons r rs ih =>
    intro acc
    by_cases h : intersects aoi_pr r.geometry
    · have hstep : DwnDE.tiles_step intersects url_main file_type aoi_pr acc r
          = acc ++ [url_main ++ file_type r,
              url_main ++ DwnDE.laz_tile_name (round (r.left / 1000) + 1)
                (round (r.bottom / 1000)),
              url_main ++ DwnDE.laz_tile_name (round (r.left / 1000))
                (round (r.bottom / 1000) + 1),
              url_main ++ DwnDE.laz_tile_name (round (r.left / 1000) + 1)
                (round (r.bottom / 1000) + 1)] := by
        simp [DwnDE.tiles_step, h]
      have hf : List.filter (fun row => intersects aoi_pr row.geometry) (r :: rs)
          = r :: List.filter (fun row => intersects aoi_pr row.geometry) rs := by
        rw [List.filter_cons]
        simp [h]
      rw [List.foldl_cons, hstep, ih, hf, List.flatMap_cons]
      simp
    · have hstep : DwnDE.tiles_step intersects url_main file_type aoi_pr acc r = acc := by
        simp [DwnDE.tiles_step, h]
      have hf : List.filter (fun row => intersects aoi_pr row.geometry) (r :: rs)
          = List.filter (fun row => intersects aoi_pr row.geometry) rs := by
        rw [List.filter_cons]
        simp [h]
      rw [List.foldl_cons, hstep, ih, hf]

/-- C7: for every NRW fishnet tile matching the AOI, the matcher appends
the tile's own remote name and then exactly three synthesized adjacent
tile identifiers — right (ax+1, ay), above (ax, ay+1) and diagonally
above-right (ax+1, ay+1) of the matched tile's lower-left corner (ax, ay)
rounded to kilometre units — and the synthesized names are produced by a
fixed naming scheme irrespective of the catalogue contents (no existence
check).  The second conjunct ties the loop to the full get_tile_names
entry point for the LAZ product. -/
theorem nrw_adjacent_tiles {G : Type} (intersects : G → G → Bool)
    (url_main : String) (file_type : DwnDE.FishRow G → String)
    (fishnet : List (DwnDE.FishRow G)) (aoi_pr : G) :
    DwnDE.tiles_loop intersects url_main file_type fishnet aoi_pr
      = (fishnet.filter (fun row => intersects aoi_pr row.geometry)).flatMap
          (fun row =>
            [url_main ++ file_type row,
             url_main ++ DwnDE.laz_tile_name (round (row.left / 1000) + 1)
               (round (row.bottom / 1000)),
             url_main ++ DwnDE.laz_tile_name (round (row.left / 1000))
               (round (row.bottom / 1000) + 1),
             url_main ++ DwnDE.laz_tile_name (round (row.left / 1000) + 1)
               (round (row.bottom / 1000) + 1)])
    ∧ ∀ (api : GeoApi G) (grd_crs : Int) (aoi : GeoSeries G),
        DwnDE.get_tile_names api fishnet grd_crs aoi "LAZ"
          = Except.ok (DwnDE.tiles_loop api.intersects
              (DwnDE.url_path ++ "3dm_l_las/3dm_l_las/") DwnDE.FishRow.laz_name
              fishnet (api.envelope (reproject api.toCrs aoi grd_crs).geometry)) := by
  constructor
  · unfold DwnDE.tiles_loop
    rw [de_fold_char]
    simp
  · intro api grd_crs aoi
    rfl

/-- C8 (amended): after reprojecting the AOI into the catalogue CRS, the
matchers intersect the catalogue tile footprints with the ENVELOPE
(axis-aligned bounding box) of the reprojected AOI footprint — not with
the footprint itself — and return exactly the identifiers of the matching
tiles, in catalogue iteration order (shown for the SRTM matcher and for
the identifier column of the NL matcher). -/
theorem tile_matcher_envelope_filter {G : Type} (api : GeoApi G)
    (fishnet : List (DwnSRTM.SrtmRow G)) (net_crs : Int) (aoi : GeoSeries G) :
    DwnSRTM.get_tile_names api fishnet net_crs aoi
      = (fishnet.filter (fun row =>
          api.intersects (api.envelope (reproject api.toCrs aoi net_crs).geometry)
            row.geometry)).map DwnSRTM.SrtmRow.tile_name
    ∧ ∀ (ahn3_gj : List (DwnNL.AhnRow G)) (ahn_crs : Int),
        (DwnNL.get_tile_names api ahn3_gj ahn_crs aoi).tile_names
          = (ahn3_gj.filter (fun row =>
              api.intersects (api.envelope (reproject api.toCrs aoi ahn_crs).geometry)
                row.geometry)).map DwnNL.AhnRow.kaartblad := by
  constructor
  · unfold DwnSRTM.get_tile_names
    rw [srtm_fold_char]
    simp
  · intro ahn3_gj ahn_crs
    unfold DwnNL.get_tile_names
    rw [nl_fold_char]
    simp

/-- C8 counterexample: a concrete catalogue and AOI that already share a
CRS (so reprojection is the identity); the single catalogue tile does not
intersect the AOI footprint itself, yet its identifier is returned,
because the matcher tests intersection against the AOI envelope. -/
theorem tile_matcher_envelope_cex :
    DwnSRTM.get_tile_names ptApi cexFishnet 4326 cexAoi = ["N46E014"]
    ∧ reproject ptApi.toCrs cexAoi 4326 = cexAoi
    ∧ ptApi.intersects cexAoi.geometry (cexFishnet.get ⟨0, by decide⟩).geometry
        = false := by
  refine ⟨by decide, by decide, by decide⟩

/-- C3 (amended): with zero input tiles the merge-and-clip engine fails
with the IndexError raised by the empty-list access src_all[0] — not with
a NoDataAvailableError, which nothing in the code base defines or raises —
and the exception propagates uncaught through the orchestrating region
routine (shown for get_SRTM). -/
theorem merge_clip_zero_tiles {G : Type} (api : GeoApi G)
    (mergeFn : List RasterFile → Option Bounds → MosaicArray × Affine)
    (gs_aoi : GeoSeries G) :
    merge_clip api mergeFn [] gs_aoi = Except.error PyErr.indexError
    ∧ get_SRTM api mergeFn (Except.ok []) gs_aoi = Except.error PyErr.indexError := by
  exact ⟨rfl, rfl⟩

/-- C3 counterexample: at the concrete empty tile list the engine's result
is the index error, which is not the NoDataAvailableError the claim
names. -/
theorem merge_clip_zero_tiles_cex :
    merge_clip unitApi mergeFn0 [] aoi0 = Except.error PyErr.indexError
    ∧ merge_clip unitApi mergeFn0 [] aoi0 ≠ Except.error PyErr.noDataAvailable := by
  refine ⟨rfl, ?_⟩
  intro hcon
  exact PyErr.noConfusion (Except.error.inj hcon)

/-- C5 (amended): when the FIRST tile (in directory listing order) has no
CRS, the clip-bounds step yields None, the merge is invoked with no clip
bounds (pixel-space stitching only, no AOI clip), and the call still
succeeds, returning the mosaic with updated metadata.  (When only a later
tile lacks a CRS this does not apply — see the counterexample.) -/
theorem merge_clip_first_crsless_skips_clip {G : Type} (api : GeoApi G)
    (mergeFn : List RasterFile → Option Bounds → MosaicArray × Affine)
    (f : RasterFile) (rest : List RasterFile) (gs_aoi : GeoSeries G)
    (h : f.crs = none) :
    clip_bounds api f gs_aoi = none
    ∧ merge_clip api mergeFn (f :: rest) gs_aoi
        = Except.ok
            { out_msg := "File successfully merged and clipped!"
              array := (mergeFn (f :: rest) none).1
              dtm_meta :=
                { f.meta with
                    driver := "GTiff"
                    height := (mergeFn (f :: rest) none).1.height
                    width := (mergeFn (f :: rest) none).1.width
                    transform := (mergeFn (f :: rest) none).2 } } := by
  have hb : clip_bounds api f gs_aoi = none := by
    unfold clip_bounds
    rw [h]
  refine ⟨hb, ?_⟩
  have h1 : merge_clip api mergeFn (f :: rest) gs_aoi
      = Except.ok
          { out_msg := "File successfully merged and clipped!"
            array := (mergeFn (f :: rest) (clip_bounds api f gs_aoi)).1
            dtm_meta :=
              { f.meta with
                  driver := "GTiff"
                  height := (mergeFn (f :: rest) (clip_bounds api f gs_aoi)).1.height
                  width := (mergeFn (f :: rest) (clip_bounds api f gs_aoi)).1.width
                  transform := (mergeFn (f :: rest) (clip_bounds api f gs_aoi)).2 } } := rfl
  rw [hb] at h1
  exact h1

/-- Witness for the amended CRS-less claim: a concrete tile set whose
first tile has no CRS; the mosaic height 3 recorded by the sample merge
shows that no clip bounds were passed. -/
theorem merge_clip_first_crsless_skips_clip_w :
    clip_bounds unitApi fileNoCrs aoi0 = none
    ∧ merge_clip unitApi mergeFn0 [fileNoCrs, fileCrs] aoi0
        = Except.ok ⟨"File successfully merged and clipped!", ⟨1, 3, 2⟩,
            { fileNoCrs.meta with
                driver := "GTiff"
                height := 3
                width := 2
                transform := affine0 }⟩ := by
  have h := merge_clip_first_crsless_skips_clip unitApi mergeFn0 fileNoCrs
    [fileCrs] aoi0 rfl
  refine ⟨h.1, ?_⟩
  rw [h.2]
  rfl

/-- C5 counterexample: a tile set containing a CRS-less tile in second
position (first tile has a CRS): the clip-bounds step is NOT skipped —
bounds are computed from the first tile's CRS and passed to the merge
(the mosaic height 7 recorded by the sample merge shows bounds were
supplied), contradicting the claim for tile sets in which some tile has
no CRS. -/
theorem merge_clip_crsless_cex :
    fileNoCrs.crs = none
    ∧ fileNoCrs ∈ [fileCrs, fileNoCrs]
    ∧ clip_bounds unitApi fileCrs aoi0 = some ⟨0, 0, 0, 0⟩
    ∧ merge_clip unitApi mergeFn0 [fileCrs, fileNoCrs] aoi0
        = Except.ok ⟨"File successfully merged and clipped!", ⟨1, 7, 2⟩,
            { meta0 with
                driver := "GTiff"
                height := 7
                width := 2
                transform := affine0 }⟩ := by
  refine ⟨rfl, by decide, by decide, rfl⟩

/-- C10: the merge-and-clip engine takes its clip decision solely from the
first raster file in directory listing order: the result equals a merge
whose bounds are `clip_bounds` of the first file alone (later tiles are
never examined for the decision), the clip is skipped exactly when the
first file has no CRS, and when the first file has CRS c the AOI is
reprojected into c and its bounds are used — even if later tiles lack a
CRS or carry a different one. -/
theorem merge_clip_first_tile_decides {G : Type} (api : GeoApi G)
    (mergeFn : List RasterFile → Option Bounds → MosaicArray × Affine)
    (f : RasterFile) (rest : List RasterFile) (gs_aoi : GeoSeries G) :
    merge_clip api mergeFn (f :: rest) gs_aoi
      = Except.ok
          { out_msg := "File successfully merged and clipped!"
            array := (mergeFn (f :: rest) (clip_bounds api f gs_aoi)).1
            dtm_meta :=
              { f.meta with
                  driver := "GTiff"
                  height := (mergeFn (f :: rest) (clip_bounds api f gs_aoi)).1.height
                  width := (mergeFn (f :: rest) (clip_bounds api f gs_aoi)).1.width
                  transform := (mergeFn (f :: rest) (clip_bounds api f gs_aoi)).2 } }
    ∧ (clip_bounds api f gs_aoi = none ↔ f.crs = none)
    ∧ (∀ c, f.crs = some c →
        clip_bounds api f gs_aoi
          = some (api.boundsOf (reproject api.toCrs gs_aoi c).geometry)) := by
  refine ⟨rfl, ?_, ?_⟩
  · cases hc : f.crs with
    | none => simp [clip_bounds, hc]
    | some c => simp [clip_bounds, hc]
  · intro c hc
    simp [clip_bounds, hc]

/-- Witness for the first-tile-decides claim: a concrete tile set whose
first tile has EPSG:4326 and whose second tile has no CRS is clipped (the
mosaic height 7 recorded by the sample merge shows bounds were passed). -/
theorem merge_clip_first_tile_decides_w :
    merge_clip unitApi mergeFn0 [fileCrs, fileNoCrs] aoi0
      = Except.ok ⟨"File successfully merged and clipped!", ⟨1, 7, 2⟩,
          { meta0 with
              driver := "GTiff"
              height := 7
              width := 2
              transform := affine0 }⟩
    ∧ clip_bounds unitApi fileCrs aoi0 = some ⟨0, 0, 0, 0⟩ := by
  have h := merge_clip_first_tile_decides unitApi mergeFn0 fileCrs [fileNoCrs] aoi0
  constructor
  · rw [h.1]
    rfl
  · exact h.2.2 4326 rfl

/-- C2 (amended): the temporary directory created at pipeline start is
removed only on the normal-completion path.  When any region stage raises,
the original error is returned unchanged (never masked) and the directory
remains in the file system; on the normal path the directory is removed
when removal succeeds, and a failing removal is swallowed (rmtree runs
with ignore_errors=True) without affecting the returned result. -/
theorem anc_main_cleanup_paths {G : Type} (env : AncEnv G) (project_id : String)
    (aoi_extent : Bounds) (aoi_epsg : Int) (fs : FileSys) :
    (∀ e, region_dispatch env.regions
        (anc_select env ⟨env.geo.box aoi_extent.minx aoi_extent.miny
          aoi_extent.maxx aoi_extent.maxy, aoi_epsg⟩) = Except.error e →
      anc_main env project_id aoi_extent aoi_epsg fs
        = (Except.error e,
           if ("./" ++ project_id ++ "_anc_temp") ∈ fs.dirs then fs
           else ⟨fs.dirs ++ ["./" ++ project_id ++ "_anc_temp"]⟩))
    ∧ (∀ pr, region_dispatch env.regions
        (anc_select env ⟨env.geo.box aoi_extent.minx aoi_extent.miny
          aoi_extent.maxx aoi_extent.maxy, aoi_epsg⟩) = Except.ok pr →
      env.rmtree_ok = true →
      anc_main env project_id aoi_extent aoi_epsg fs
        = (Except.ok (assemble env.wkt pr.1 pr.2),
           ⟨(if ("./" ++ project_id ++ "_anc_temp") ∈ fs.dirs then fs
             else ⟨fs.dirs ++ ["./" ++ project_id ++ "_anc_temp"]⟩).dirs.filter
               (fun d => d ≠ ("./" ++ project_id ++ "_anc_temp"))⟩))
    ∧ (∀ pr, region_dispatch env.regions
        (anc_select env ⟨env.geo.box aoi_extent.minx aoi_extent.miny
          aoi_extent.maxx aoi_extent.maxy, aoi_epsg⟩) = Except.ok pr →
      env.rmtree_ok = false →
      anc_main env project_id aoi_extent aoi_epsg fs
        = (Except.ok (assemble env.wkt pr.1 pr.2),
           if ("./" ++ project_id ++ "_anc_temp") ∈ fs.dirs then fs
           else ⟨fs.dirs ++ ["./" ++ project_id ++ "_anc_temp"]⟩)) := by
  refine ⟨?_, ?_, ?_⟩
  · intro e hdis
    simp only [anc_main]
    rw [hdis]
  · intro pr hdis hrm
    obtain ⟨out, oi⟩ := pr
    simp only [anc_main]
    rw [hdis, hrm]
    simp
  · intro pr hdis hrm
    obtain ⟨out, oi⟩ := pr
    simp only [anc_main]
    rw [hdis, hrm]
    simp

/-- Witness for the cleanup claim: a successful MX run removes the
temporary directory when removal works and leaves it (while still
returning the successful result) when removal fails. -/
theorem anc_main_cleanup_paths_w :
    anc_main envMX "p3" ext0 4326 ⟨["./other"]⟩
      = (Except.ok (assemble wkt0 prod0 none), ⟨["./other"]⟩)
    ∧ anc_main envMXNoRm "p3" ext0 4326 ⟨["./other"]⟩
      = (Except.ok (assemble wkt0 prod0 none),
         ⟨["./other", "./p3_anc_temp"]⟩) := by
  constructor
  · have h := (anc_main_cleanup_paths envMX "p3" ext0 4326
      ⟨["./other"]⟩).2.1 (prod0, none) rfl rfl
    rw [h]
    rfl
  · have h := (anc_main_cleanup_paths envMXNoRm "p3" ext0 4326
      ⟨["./other"]⟩).2.2 (prod0, none) rfl rfl
    rw [h]
    rfl

/-- C2 counterexample: a run whose region stage raises returns that error
while the temporary directory ./p1_anc_temp created for the run is still
present in the final file system — the cleanup did not run on this exit
path. -/
theorem anc_main_cleanup_cex :
    anc_main envFail "p1" ext0 4326 ⟨[]⟩
      = (Except.error (PyErr.other "boom"), ⟨["./p1_anc_temp"]⟩)
    ∧ ("./p1_anc_temp") ∈ (anc_main envFail "p1" ext0 4326 ⟨[]⟩).2.dirs := by
  refine ⟨rfl, ?_⟩
  have h : (anc_main envFail "p1" ext0 4326 ⟨[]⟩).2.dirs = ["./p1_anc_temp"] := rfl
  rw [h]
  exact List.mem_singleton.mpr rfl

/-- C4 (amended): a failure while producing the secondary intensity
product aborts the whole pipeline — the LAZ stage's exception propagates
out of anc_main (shown for the NL branch); the intensity entry is None
only for sources that never attempt the secondary product (shown for the
MX branch). -/
theorem intensity_failure_aborts {G : Type} (env : AncEnv G) (project_id : String)
    (aoi_extent : Bounds) (aoi_epsg : Int) (fs : FileSys) :
    (anc_select env ⟨env.geo.box aoi_extent.minx aoi_extent.miny
        aoi_extent.maxx aoi_extent.maxy, aoi_epsg⟩ = some "NL" →
      ∀ p e, env.regions.get_NL "DTM" = Except.ok p →
        env.regions.get_NL "LAZ" = Except.error e →
        (anc_main env project_id aoi_extent aoi_epsg fs).1 = Except.error e)
    ∧ (anc_select env ⟨env.geo.box aoi_extent.minx aoi_extent.miny
        aoi_extent.maxx aoi_extent.maxy, aoi_epsg⟩ = some "MX" →
      ∀ p, env.regions.get_MX = Except.ok p →
        (anc_main env project_id aoi_extent aoi_epsg fs).1
          = Except.ok (assemble env.wkt p none)
        ∧ (assemble env.wkt p none).array_intensity = none) := by
  constructor
  · intro hsel p e hp hlaz
    have hx : region_dispatch env.regions (some "NL")
        = (env.regions.get_NL "DTM").bind
            (fun out => (env.regions.get_NL "LAZ").bind
              (fun out_int => Except.ok (out, some out_int))) := rfl
    have hdis : region_dispatch env.regions (some "NL") = Except.error e := by
      rw [hx, hp, hlaz]
      rfl
    simp only [anc_main]
    rw [hsel, hdis]
  · intro hsel p hp
    have hx : region_dispatch env.regions (some "MX")
        = (env.regions.get_MX).bind (fun out => Except.ok (out, none)) := rfl
    have hdis : region_dispatch env.regions (some "MX") = Except.ok (p, none) := by
      rw [hx, hp]
      rfl
    constructor
    · simp only [anc_main]
      rw [hsel, hdis]
    · rfl

/-- Witness for the amended intensity claim: the MX branch returns the
primary product with the intensity entry None. -/
theorem intensity_failure_aborts_w :
    (anc_main envMX "p4" ext0 4326 ⟨[]⟩).1 = Except.ok (assemble wkt0 prod0 none)
    ∧ (assemble wkt0 prod0 none).array_intensity = none := by
  exact (intensity_failure_aborts envMX "p4" ext0 4326 ⟨[]⟩).2 rfl prod0 rfl

/-- C4 counterexample: a run whose primary NL elevation product succeeds
but whose NL intensity product fails returns the intensity stage's error —
not the primary result with the intensity entry degraded to None. -/
theorem intensity_failure_cex :
    anc_main envNLLazFail "p2" ext0 4326 ⟨[]⟩
      = (Except.error (PyErr.other "laz failed"), ⟨["./p2_anc_temp"]⟩)
    ∧ envNLLazFail.regions.get_NL "DTM" = Except.ok prod0
    ∧ (anc_main envNLLazFail "p2" ext0 4326 ⟨[]⟩).1
        ≠ Except.ok (assemble envNLLazFail.wkt prod0 none) := by
  refine ⟨rfl, rfl, ?_⟩
  intro hcon
  exact Except.noConfusion hcon

end DownloadDem
